import Mathlib

/-!
Verification of the nomad GUI search/datatable components against their
natural-language specification.

The definitions below are shallow embeddings of the JavaScript sources:
  * `combinePagination`, `handleSelect`      from gui/src/components/datatable/Datatable.js
  * `saveFilter`, `buildFilterNameMaps`      from the FilterRegistry module
  * `handleSubmit`, `opMap`, `opMapReverse`  from gui/src/components/search/Search.js

JavaScript conventions used throughout the embedding:
  * an optional field that may be `undefined` is an `Option`;
  * the expression `a || b` on numbers/strings falls back on falsy values
    (`0`, `''`, `undefined`), embedded by `jsOrNum` / `jsOrStr`;
  * pagination values are JS numbers used as integers, embedded as `Int`
    (`NaN` does not arise for these fields);
  * JS objects used as string-keyed dictionaries are association lists.

The file is organised as definitions first, then theorems.
-/

/-- JS `a || b` for optional numbers: `undefined` and `0` are falsy. -/
def jsOrNum (a b : Option Int) : Option Int :=
  match a with
  | none => b
  | some x => if x = 0 then b else some x

/-- JS `a || b` for optional strings: `undefined` and the empty string are falsy. -/
def jsOrStr (a b : Option String) : Option String :=
  match a with
  | none => b
  | some s => if s = "" then b else some s

/-- JS truthiness of an optional number. -/
def truthyNum (a : Option Int) : Bool :=
  match a with
  | none => false
  | some x => x ≠ 0

/-- JS truthiness of an optional string. -/
def truthyStr (a : Option String) : Bool :=
  match a with
  | none => false
  | some s => s ≠ ""

/-- A pagination object as handled by `Datatable.js` (request, response and
combined form share this shape; a missing key is `none`).  An entirely
`undefined` response is embedded as the record with every field `none`. -/
structure Pagination where
  page_size : Option Int := none
  order_by : Option String := none
  order : Option String := none
  page : Option Int := none
  total : Option Int := none
  page_after_value : Option Int := none
  next_page_after_value : Option Int := none
  deriving DecidableEq, Repr

/-- Embedding of `combinePagination(request, response)`
(Datatable.js lines 40-55).  The cursor fields are only written when the
combined `page` is falsy; otherwise the keys stay absent. -/
def combinePagination (request response : Pagination) : Pagination :=
  let result : Pagination :=
    { page_size := jsOrNum request.page_size response.page_size
      order_by := jsOrStr request.order_by response.order_by
      order := jsOrStr request.order response.order
      page := jsOrNum request.page response.page
      total := response.total }
  if truthyNum result.page then result
  else
    { result with
      page_after_value := jsOrNum request.page_after_value response.page_after_value
      next_page_after_value := response.next_page_after_value }

/-- A table row; `entry_id` is the unique id field the selection logic keys
on, `payload` stands for the remaining row data. -/
structure Row where
  entry_id : String
  payload : Nat := 0
  deriving DecidableEq, Repr

/-- Selection state of a `Datatable`: either the sentinel `"all"` or an
explicit list of selected rows. -/
inductive Selected where
  | all : Selected
  | rows : List Row → Selected
  deriving DecidableEq, Repr

/-- Embedding of the updater passed to `onSelectedChanged` in
`DatatableRow.handleSelect` (Datatable.js lines 340-353): selecting while
`selected === 'all'` returns `[row]`; otherwise the row is removed (matching
on `entry_id`) if present, else appended. -/
def handleSelect (selected : Selected) (row : Row) : Selected :=
  match selected with
  | .all => .rows [row]
  | .rows rs =>
    match rs.findIdx? (fun r => r.entry_id = row.entry_id) with
    | some i => .rows (rs.take i ++ rs.drop (i + 1))
    | none => .rows (rs ++ [row])

/-- A JS value usable as a filter `default` in the registry declarations
(the registrations use the string `'visible'` and the booleans
`true`/`false`). -/
inductive JSDefault where
  | str : String → JSDefault
  | bool : Bool → JSDefault
  deriving DecidableEq, Repr

/-- JS truthiness of an optional default value: `undefined`, `false` and the
empty string are falsy. -/
def truthyDefault (a : Option JSDefault) : Bool :=
  match a with
  | none => false
  | some (.str s) => s ≠ ""
  | some (.bool b) => b

/-- JS truthiness of an optional boolean. -/
def truthyBool (a : Option Bool) : Bool :=
  match a with
  | none => false
  | some b => b

/-- The `config` argument of `saveFilter`.  Only the fields that take part in
the registration checks and defaulting are embedded; the purely
presentational fields (`aggs`, `value`, `stats`, `label`, `description`,
`unit`, `dtype`, `scale`, `options`) do not influence the embedded control
flow and are omitted. -/
structure FilterConfig where
  multiple : Option Bool := none
  exclusive : Option Bool := none
  queryMode : Option String := none
  global : Option Bool := none
  default : Option JSDefault := none
  resources : Option (List String) := none
  deriving DecidableEq, Repr

/-- The stored registry entry for one filter (the claim-relevant fields of
the `data` object that `saveFilter` writes into `filterData[name]`). -/
structure FilterData where
  multiple : Bool
  exclusive : Bool
  queryMode : String
  global : Option Bool
  default : Option JSDefault
  resources : List String
  deriving DecidableEq, Repr

/-- Embedding of `saveFilter(name, group, config, parent)` from the
FilterRegistry module (lines 319-356).  `prev` is `filterData[name]`, the
entry left by an earlier registration of the same name (`none` on a fresh
registration).  The statement order of the source is preserved: `multiple`
and `exclusive` are assigned before the query-mode check, the check reads
`data.queryMode` (still the previous registration's value at that point, or
`undefined` when fresh), and only afterwards is `data.queryMode` assigned
from `config.queryMode || 'any'`.  A thrown `Error` is `Except.error`. -/
def saveFilter (prev : Option FilterData) (config : FilterConfig) :
    Except String FilterData :=
  let multiple := match config.multiple with | none => true | some b => b
  let exclusive := match config.exclusive with | none => true | some b => b
  let prevQueryMode : Option String := prev.map FilterData.queryMode
  if truthyStr prevQueryMode && !multiple then
    Except.error "Only filters that accept multiple values may have a query mode."
  else
    let queryMode := match config.queryMode with
      | none => "any"
      | some s => if s = "" then "any" else s
    let global := config.global
    if truthyDefault config.default && !truthyBool global then
      Except.error "Only filters that do not correspond to a metainfo value may have default values set."
    else
      Except.ok
        { multiple := multiple
          exclusive := exclusive
          queryMode := queryMode
          global := global
          default := config.default
          resources := match config.resources with
            | none => ["entries", "materials"]
            | some r => r }

/-- Association-list lookup, embedding JS object property read
(`obj[key]`, `undefined` when absent). -/
def alGet {α : Type} (m : List (String × α)) (k : String) : Option α :=
  match m with
  | [] => none
  | (k2, v) :: rest => if k2 = k then some v else alGet rest k

/-- Association-list write, embedding JS object property assignment
(`obj[key] = v`: overwrite if present, insert otherwise). -/
def alSet {α : Type} (m : List (String × α)) (k : String) (v : α) :
    List (String × α) :=
  match m with
  | [] => [(k, v)]
  | (k2, v2) :: rest => if k2 = k then (k, v) :: rest else (k2, v2) :: alSet rest k v

/-- One step of the occurrence count
(`old === undefined ? 1 : old + 1`). -/
def bumpCount (m : List (String × Nat)) (k : String) : List (String × Nat) :=
  match alGet m k with
  | none => alSet m k 1
  | some n => alSet m k (n + 1)

/-- Embedding of `fullname.split('.')`. -/
def splitDotAux : List Char → List Char → List String
  | [], acc => [String.mk acc.reverse]
  | c :: rest, acc =>
    if c = '.' then String.mk acc.reverse :: splitDotAux rest []
    else splitDotAux rest (c :: acc)

/-- Embedding of `fullname.split('.').pop()`: the last dot-segment of a
filter name. -/
def lastSegment (s : String) : String :=
  (splitDotAux s.toList []).getLastD ""

/-- Embedding of the abbreviation construction run after all registrations
(FilterRegistry module, lines 781-801): build the occurrence counts of every
last dot-segment, initialise both maps with the identity on full names, then
register the bidirectional name-abbreviation mapping for every name whose
short form occurs exactly once. -/
def buildFilterNameMaps (names : List String) :
    List (String × String) × List (String × String) :=
  let nameAbbreviationPairs := names.map fun fullname => (fullname, lastSegment fullname)
  let firstPass := nameAbbreviationPairs.foldl
    (fun acc p => (bumpCount acc.1 p.2, alSet acc.2.1 p.1 p.1, alSet acc.2.2 p.1 p.1))
    (([] : List (String × Nat)), ([] : List (String × String)),
      ([] : List (String × String)))
  let abbreviations := firstPass.1
  nameAbbreviationPairs.foldl
    (fun acc p =>
      if alGet abbreviations p.2 = some 1 then
        (alSet acc.1 p.1 p.2, alSet acc.2 p.2 p.1)
      else acc)
    (firstPass.2.1, firstPass.2.2)

/-- The names of all filters registered by the declarative registration table
of the FilterRegistry module (every `registerFilter` call, including the
derived `${name}.${sub.name}` sub-filter names, and every
`registerFilterOptions` call), in registration order: the keys of
`filterData` when the abbreviation construction runs. -/
def registeredFilterNames : List String :=
  [ "results.material.structural_type"
  , "results.material.functional_type"
  , "results.material.compound_type"
  , "results.material.material_name"
  , "results.material.chemical_formula_hill"
  , "results.material.chemical_formula_anonymous"
  , "results.material.n_elements"
  , "results.material.symmetry.bravais_lattice"
  , "results.material.symmetry.crystal_system"
  , "results.material.symmetry.structure_name"
  , "results.material.symmetry.strukturbericht_designation"
  , "results.material.symmetry.space_group_symbol"
  , "results.material.symmetry.point_group"
  , "results.material.symmetry.hall_symbol"
  , "results.material.symmetry.prototype_aflow_id"
  , "results.method.method_name"
  , "results.method.workflow_name"
  , "results.method.simulation.program_name"
  , "results.method.simulation.program_version"
  , "results.method.simulation.dft.basis_set_type"
  , "results.method.simulation.dft.core_electron_treatment"
  , "results.method.simulation.dft.xc_functional_type"
  , "results.method.simulation.dft.xc_functional_names"
  , "results.method.simulation.dft.exact_exchange_mixing_factor"
  , "results.method.simulation.dft.hubbard_model.u_effective"
  , "results.method.simulation.dft.relativity_method"
  , "results.method.simulation.gw.type"
  , "results.eln.sections"
  , "results.eln.tags"
  , "results.eln.methods"
  , "results.eln.instruments"
  , "results.eln.lab_ids"
  , "results.eln.names"
  , "results.eln.descriptions"
  , "external_db"
  , "authors.name"
  , "upload_create_time"
  , "datasets.dataset_name"
  , "datasets.doi"
  , "entry_id"
  , "upload_id"
  , "quantities"
  , "sections"
  , "entry_type"
  , "entry_name.prefix"
  , "results.material.material_id"
  , "datasets.dataset_id"
  , "optimade_filter"
  , "results.properties.spectroscopy.eels"
  , "results.properties.spectroscopy.eels.detector_type"
  , "results.properties.spectroscopy.eels.resolution"
  , "results.properties.spectroscopy.eels.min_energy"
  , "results.properties.spectroscopy.eels.max_energy"
  , "results.properties.electronic.band_structure_electronic"
  , "results.properties.electronic.band_structure_electronic.spin_polarized"
  , "results.properties.electronic.dos_electronic"
  , "results.properties.electronic.dos_electronic.spin_polarized"
  , "results.properties.electronic.band_structure_electronic.band_gap"
  , "results.properties.electronic.band_structure_electronic.band_gap.type"
  , "results.properties.electronic.band_structure_electronic.band_gap.value"
  , "results.properties.optoelectronic.band_gap_optical"
  , "results.properties.optoelectronic.band_gap_optical.type"
  , "results.properties.optoelectronic.band_gap_optical.value"
  , "results.properties.optoelectronic.solar_cell"
  , "results.properties.optoelectronic.solar_cell.efficiency"
  , "results.properties.optoelectronic.solar_cell.fill_factor"
  , "results.properties.optoelectronic.solar_cell.open_circuit_voltage"
  , "results.properties.optoelectronic.solar_cell.short_circuit_current_density"
  , "results.properties.optoelectronic.solar_cell.illumination_intensity"
  , "results.properties.optoelectronic.solar_cell.device_area"
  , "results.properties.optoelectronic.solar_cell.device_architecture"
  , "results.properties.optoelectronic.solar_cell.absorber_fabrication"
  , "results.properties.optoelectronic.solar_cell.device_stack"
  , "results.properties.optoelectronic.solar_cell.absorber"
  , "results.properties.optoelectronic.solar_cell.electron_transport_layer"
  , "results.properties.optoelectronic.solar_cell.hole_transport_layer"
  , "results.properties.optoelectronic.solar_cell.substrate"
  , "results.properties.optoelectronic.solar_cell.back_contact"
  , "results.properties.mechanical.bulk_modulus"
  , "results.properties.mechanical.bulk_modulus.type"
  , "results.properties.mechanical.bulk_modulus.value"
  , "results.properties.mechanical.shear_modulus"
  , "results.properties.mechanical.shear_modulus.type"
  , "results.properties.mechanical.shear_modulus.value"
  , "results.properties.available_properties"
  , "results.properties.mechanical.energy_volume_curve"
  , "results.properties.mechanical.energy_volume_curve.type"
  , "results.properties.geometry_optimization"
  , "results.properties.geometry_optimization.final_energy_difference"
  , "results.properties.geometry_optimization.final_displacement_maximum"
  , "results.properties.geometry_optimization.final_force_maximum"
  , "results.properties.thermodynamic.trajectory"
  , "results.properties.thermodynamic.trajectory.available_properties"
  , "results.properties.thermodynamic.trajectory.methodology.molecular_dynamics.ensemble_type"
  , "results.properties.thermodynamic.trajectory.methodology.molecular_dynamics.time_step"
  , "visibility"
  , "combine"
  , "exclusive"
  , "results.material.elements"
  , "electronic_properties"
  , "optoelectronic_properties"
  , "vibrational_properties"
  , "mechanical_properties"
  , "spectroscopic_properties"
  , "thermodynamic_properties" ]

/-- `filterAbbreviations`: mapping of filter full name to abbreviation. -/
def filterAbbreviations : List (String × String) :=
  (buildFilterNameMaps registeredFilterNames).1

/-- `filterFullnames`: mapping of filter abbreviation to full name (also
containing the identity entries on full names installed by the first loop). -/
def filterFullnames : List (String × String) :=
  (buildFilterNameMaps registeredFilterNames).2

/-- How often a short form occurs as the last dot-segment among the
registered filter names ("unique across all registered filters" means this
count is 1). -/
def shortFormCount (names : List String) (abbr : String) : Nat :=
  (names.filter fun n => lastSegment n = abbr).length

/-- The concrete value of `filterAbbreviations` (proved equal below by
evaluation): every registered full name maps to its last dot-segment when
that segment is unique, to itself otherwise. -/
def abbreviationMapValue : List (String × String) :=
  [ ("results.material.structural_type", "structural_type")
  , ("results.material.functional_type", "functional_type")
  , ("results.material.compound_type", "compound_type")
  , ("results.material.material_name", "material_name")
  , ("results.material.chemical_formula_hill", "chemical_formula_hill")
  , ("results.material.chemical_formula_anonymous", "chemical_formula_anonymous")
  , ("results.material.n_elements", "n_elements")
  , ("results.material.symmetry.bravais_lattice", "bravais_lattice")
  , ("results.material.symmetry.crystal_system", "crystal_system")
  , ("results.material.symmetry.structure_name", "structure_name")
  , ("results.material.symmetry.strukturbericht_designation", "strukturbericht_designation")
  , ("results.material.symmetry.space_group_symbol", "space_group_symbol")
  , ("results.material.symmetry.point_group", "point_group")
  , ("results.material.symmetry.hall_symbol", "hall_symbol")
  , ("results.material.symmetry.prototype_aflow_id", "prototype_aflow_id")
  , ("results.method.method_name", "method_name")
  , ("results.method.workflow_name", "workflow_name")
  , ("results.method.simulation.program_name", "program_name")
  , ("results.method.simulation.program_version", "program_version")
  , ("results.method.simulation.dft.basis_set_type", "basis_set_type")
  , ("results.method.simulation.dft.core_electron_treatment", "core_electron_treatment")
  , ("results.method.simulation.dft.xc_functional_type", "xc_functional_type")
  , ("results.method.simulation.dft.xc_functional_names", "xc_functional_names")
  , ("results.method.simulation.dft.exact_exchange_mixing_factor", "exact_exchange_mixing_factor")
  , ("results.method.simulation.dft.hubbard_model.u_effective", "u_effective")
  , ("results.method.simulation.dft.relativity_method", "relativity_method")
  , ("results.method.simulation.gw.type", "results.method.simulation.gw.type")
  , ("results.eln.sections", "results.eln.sections")
  , ("results.eln.tags", "tags")
  , ("results.eln.methods", "methods")
  , ("results.eln.instruments", "instruments")
  , ("results.eln.lab_ids", "lab_ids")
  , ("results.eln.names", "names")
  , ("results.eln.descriptions", "descriptions")
  , ("external_db", "external_db")
  , ("authors.name", "name")
  , ("upload_create_time", "upload_create_time")
  , ("datasets.dataset_name", "dataset_name")
  , ("datasets.doi", "doi")
  , ("entry_id", "entry_id")
  , ("upload_id", "upload_id")
  , ("quantities", "quantities")
  , ("sections", "sections")
  , ("entry_type", "entry_type")
  , ("entry_name.prefix", "prefix")
  , ("results.material.material_id", "material_id")
  , ("datasets.dataset_id", "dataset_id")
  , ("optimade_filter", "optimade_filter")
  , ("results.properties.spectroscopy.eels", "eels")
  , ("results.properties.spectroscopy.eels.detector_type", "detector_type")
  , ("results.properties.spectroscopy.eels.resolution", "resolution")
  , ("results.properties.spectroscopy.eels.min_energy", "min_energy")
  , ("results.properties.spectroscopy.eels.max_energy", "max_energy")
  , ("results.properties.electronic.band_structure_electronic", "band_structure_electronic")
  , ("results.properties.electronic.band_structure_electronic.spin_polarized", "results.properties.electronic.band_structure_electronic.spin_polarized")
  , ("results.properties.electronic.dos_electronic", "dos_electronic")
  , ("results.properties.electronic.dos_electronic.spin_polarized", "results.properties.electronic.dos_electronic.spin_polarized")
  , ("results.properties.electronic.band_structure_electronic.band_gap", "band_gap")
  , ("results.properties.electronic.band_structure_electronic.band_gap.type", "results.properties.electronic.band_structure_electronic.band_gap.type")
  , ("results.properties.electronic.band_structure_electronic.band_gap.value", "results.properties.electronic.band_structure_electronic.band_gap.value")
  , ("results.properties.optoelectronic.band_gap_optical", "band_gap_optical")
  , ("results.properties.optoelectronic.band_gap_optical.type", "results.properties.optoelectronic.band_gap_optical.type")
  , ("results.properties.optoelectronic.band_gap_optical.value", "results.properties.optoelectronic.band_gap_optical.value")
  , ("results.properties.optoelectronic.solar_cell", "solar_cell")
  , ("results.properties.optoelectronic.solar_cell.efficiency", "efficiency")
  , ("results.properties.optoelectronic.solar_cell.fill_factor", "fill_factor")
  , ("results.properties.optoelectronic.solar_cell.open_circuit_voltage", "open_circuit_voltage")
  , ("results.properties.optoelectronic.solar_cell.short_circuit_current_density", "short_circuit_current_density")
  , ("results.properties.optoelectronic.solar_cell.illumination_intensity", "illumination_intensity")
  , ("results.properties.optoelectronic.solar_cell.device_area", "device_area")
  , ("results.properties.optoelectronic.solar_cell.device_architecture", "device_architecture")
  , ("results.properties.optoelectronic.solar_cell.absorber_fabrication", "absorber_fabrication")
  , ("results.properties.optoelectronic.solar_cell.device_stack", "device_stack")
  , ("results.properties.optoelectronic.solar_cell.absorber", "absorber")
  , ("results.properties.optoelectronic.solar_cell.electron_transport_layer", "electron_transport_layer")
  , ("results.properties.optoelectronic.solar_cell.hole_transport_layer", "hole_transport_layer")
  , ("results.properties.optoelectronic.solar_cell.substrate", "substrate")
  , ("results.properties.optoelectronic.solar_cell.back_contact", "back_contact")
  , ("results.properties.mechanical.bulk_modulus", "bulk_modulus")
  , ("results.properties.mechanical.bulk_modulus.type", "results.properties.mechanical.bulk_modulus.type")
  , ("results.properties.mechanical.bulk_modulus.value", "results.properties.mechanical.bulk_modulus.value")
  , ("results.properties.mechanical.shear_modulus", "shear_modulus")
  , ("results.properties.mechanical.shear_modulus.type", "results.properties.mechanical.shear_modulus.type")
  , ("results.properties.mechanical.shear_modulus.value", "results.properties.mechanical.shear_modulus.value")
  , ("results.properties.available_properties", "results.properties.available_properties")
  , ("results.properties.mechanical.energy_volume_curve", "energy_volume_curve")
  , ("results.properties.mechanical.energy_volume_curve.type", "results.properties.mechanical.energy_volume_curve.type")
  , ("results.properties.geometry_optimization", "geometry_optimization")
  , ("results.properties.geometry_optimization.final_energy_difference", "final_energy_difference")
  , ("results.properties.geometry_optimization.final_displacement_maximum", "final_displacement_maximum")
  , ("results.properties.geometry_optimization.final_force_maximum", "final_force_maximum")
  , ("results.properties.thermodynamic.trajectory", "trajectory")
  , ("results.properties.thermodynamic.trajectory.available_properties", "results.properties.thermodynamic.trajectory.available_properties")
  , ("results.properties.thermodynamic.trajectory.methodology.molecular_dynamics.ensemble_type", "ensemble_type")
  , ("results.properties.thermodynamic.trajectory.methodology.molecular_dynamics.time_step", "time_step")
  , ("visibility", "visibility")
  , ("combine", "combine")
  , ("exclusive", "exclusive")
  , ("results.material.elements", "elements")
  , ("electronic_properties", "electronic_properties")
  , ("optoelectronic_properties", "optoelectronic_properties")
  , ("vibrational_properties", "vibrational_properties")
  , ("mechanical_properties", "mechanical_properties")
  , ("spectroscopic_properties", "spectroscopic_properties")
  , ("thermodynamic_properties", "thermodynamic_properties") ]

/-- The concrete value of `filterFullnames` (proved equal below by
evaluation): identity entries on every full name plus one entry per unique
short form. -/
def fullnameMapValue : List (String × String) :=
  [ ("results.material.structural_type", "results.material.structural_type")
  , ("results.material.functional_type", "results.material.functional_type")
  , ("results.material.compound_type", "results.material.compound_type")
  , ("results.material.material_name", "results.material.material_name")
  , ("results.material.chemical_formula_hill", "results.material.chemical_formula_hill")
  , ("results.material.chemical_formula_anonymous", "results.material.chemical_formula_anonymous")
  , ("results.material.n_elements", "results.material.n_elements")
  , ("results.material.symmetry.bravais_lattice", "results.material.symmetry.bravais_lattice")
  , ("results.material.symmetry.crystal_system", "results.material.symmetry.crystal_system")
  , ("results.material.symmetry.structure_name", "results.material.symmetry.structure_name")
  , ("results.material.symmetry.strukturbericht_designation", "results.material.symmetry.strukturbericht_designation")
  , ("results.material.symmetry.space_group_symbol", "results.material.symmetry.space_group_symbol")
  , ("results.material.symmetry.point_group", "results.material.symmetry.point_group")
  , ("results.material.symmetry.hall_symbol", "results.material.symmetry.hall_symbol")
  , ("results.material.symmetry.prototype_aflow_id", "results.material.symmetry.prototype_aflow_id")
  , ("results.method.method_name", "results.method.method_name")
  , ("results.method.workflow_name", "results.method.workflow_name")
  , ("results.method.simulation.program_name", "results.method.simulation.program_name")
  , ("results.method.simulation.program_version", "results.method.simulation.program_version")
  , ("results.method.simulation.dft.basis_set_type", "results.method.simulation.dft.basis_set_type")
  , ("results.method.simulation.dft.core_electron_treatment", "results.method.simulation.dft.core_electron_treatment")
  , ("results.method.simulation.dft.xc_functional_type", "results.method.simulation.dft.xc_functional_type")
  , ("results.method.simulation.dft.xc_functional_names", "results.method.simulation.dft.xc_functional_names")
  , ("results.method.simulation.dft.exact_exchange_mixing_factor", "results.method.simulation.dft.exact_exchange_mixing_factor")
  , ("results.method.simulation.dft.hubbard_model.u_effective", "results.method.simulation.dft.hubbard_model.u_effective")
  , ("results.method.simulation.dft.relativity_method", "results.method.simulation.dft.relativity_method")
  , ("results.method.simulation.gw.type", "results.method.simulation.gw.type")
  , ("results.eln.sections", "results.eln.sections")
  , ("results.eln.tags", "results.eln.tags")
  , ("results.eln.methods", "results.eln.methods")
  , ("results.eln.instruments", "results.eln.instruments")
  , ("results.eln.lab_ids", "results.eln.lab_ids")
  , ("results.eln.names", "results.eln.names")
  , ("results.eln.descriptions", "results.eln.descriptions")
  , ("external_db", "external_db")
  , ("authors.name", "authors.name")
  , ("upload_create_time", "upload_create_time")
  , ("datasets.dataset_name", "datasets.dataset_name")
  , ("datasets.doi", "datasets.doi")
  , ("entry_id", "entry_id")
  , ("upload_id", "upload_id")
  , ("quantities", "quantities")
  , ("sections", "sections")
  , ("entry_type", "entry_type")
  , ("entry_name.prefix", "entry_name.prefix")
  , ("results.material.material_id", "results.material.material_id")
  , ("datasets.dataset_id", "datasets.dataset_id")
  , ("optimade_filter", "optimade_filter")
  , ("results.properties.spectroscopy.eels", "results.properties.spectroscopy.eels")
  , ("results.properties.spectroscopy.eels.detector_type", "results.properties.spectroscopy.eels.detector_type")
  , ("results.properties.spectroscopy.eels.resolution", "results.properties.spectroscopy.eels.resolution")
  , ("results.properties.spectroscopy.eels.min_energy", "results.properties.spectroscopy.eels.min_energy")
  , ("results.properties.spectroscopy.eels.max_energy", "results.properties.spectroscopy.eels.max_energy")
  , ("results.properties.electronic.band_structure_electronic", "results.properties.electronic.band_structure_electronic")
  , ("results.properties.electronic.band_structure_electronic.spin_polarized", "results.properties.electronic.band_structure_electronic.spin_polarized")
  , ("results.properties.electronic.dos_electronic", "results.properties.electronic.dos_electronic")
  , ("results.properties.electronic.dos_electronic.spin_polarized", "results.properties.electronic.dos_electronic.spin_polarized")
  , ("results.properties.electronic.band_structure_electronic.band_gap", "results.properties.electronic.band_structure_electronic.band_gap")
  , ("results.properties.electronic.band_structure_electronic.band_gap.type", "results.properties.electronic.band_structure_electronic.band_gap.type")
  , ("results.properties.electronic.band_structure_electronic.band_gap.value", "results.properties.electronic.band_structure_electronic.band_gap.value")
  , ("results.properties.optoelectronic.band_gap_optical", "results.properties.optoelectronic.band_gap_optical")
  , ("results.properties.optoelectronic.band_gap_optical.type", "results.properties.optoelectronic.band_gap_optical.type")
  , ("results.properties.optoelectronic.band_gap_optical.value", "results.properties.optoelectronic.band_gap_optical.value")
  , ("results.properties.optoelectronic.solar_cell", "results.properties.optoelectronic.solar_cell")
  , ("results.properties.optoelectronic.solar_cell.efficiency", "results.properties.optoelectronic.solar_cell.efficiency")
  , ("results.properties.optoelectronic.solar_cell.fill_factor", "results.properties.optoelectronic.solar_cell.fill_factor")
  , ("results.properties.optoelectronic.solar_cell.open_circuit_voltage", "results.properties.optoelectronic.solar_cell.open_circuit_voltage")
  , ("results.properties.optoelectronic.solar_cell.short_circuit_current_density", "results.properties.optoelectronic.solar_cell.short_circuit_current_density")
  , ("results.properties.optoelectronic.solar_cell.illumination_intensity", "results.properties.optoelectronic.solar_cell.illumination_intensity")
  , ("results.properties.optoelectronic.solar_cell.device_area", "results.properties.optoelectronic.solar_cell.device_area")
  , ("results.properties.optoelectronic.solar_cell.device_architecture", "results.properties.optoelectronic.solar_cell.device_architecture")
  , ("results.properties.optoelectronic.solar_cell.absorber_fabrication", "results.properties.optoelectronic.solar_cell.absorber_fabrication")
  , ("results.properties.optoelectronic.solar_cell.device_stack", "results.properties.optoelectronic.solar_cell.device_stack")
  , ("results.properties.optoelectronic.solar_cell.absorber", "results.properties.optoelectronic.solar_cell.absorber")
  , ("results.properties.optoelectronic.solar_cell.electron_transport_layer", "results.properties.optoelectronic.solar_cell.electron_transport_layer")
  , ("results.properties.optoelectronic.solar_cell.hole_transport_layer", "results.properties.optoelectronic.solar_cell.hole_transport_layer")
  , ("results.properties.optoelectronic.solar_cell.substrate", "results.properties.optoelectronic.solar_cell.substrate")
  , ("results.properties.optoelectronic.solar_cell.back_contact", "results.properties.optoelectronic.solar_cell.back_contact")
  , ("results.properties.mechanical.bulk_modulus", "results.properties.mechanical.bulk_modulus")
  , ("results.properties.mechanical.bulk_modulus.type", "results.properties.mechanical.bulk_modulus.type")
  , ("results.properties.mechanical.bulk_modulus.value", "results.properties.mechanical.bulk_modulus.value")
  , ("results.properties.mechanical.shear_modulus", "results.properties.mechanical.shear_modulus")
  , ("results.properties.mechanical.shear_modulus.type", "results.properties.mechanical.shear_modulus.type")
  , ("results.properties.mechanical.shear_modulus.value", "results.properties.mechanical.shear_modulus.value")
  , ("results.properties.available_properties", "results.properties.available_properties")
  , ("results.properties.mechanical.energy_volume_curve", "results.properties.mechanical.energy_volume_curve")
  , ("results.properties.mechanical.energy_volume_curve.type", "results.properties.mechanical.energy_volume_curve.type")
  , ("results.properties.geometry_optimization", "results.properties.geometry_optimization")
  , ("results.properties.geometry_optimization.final_energy_difference", "results.properties.geometry_optimization.final_energy_difference")
  , ("results.properties.geometry_optimization.final_displacement_maximum", "results.properties.geometry_optimization.final_displacement_maximum")
  , ("results.properties.geometry_optimization.final_force_maximum", "results.properties.geometry_optimization.final_force_maximum")
  , ("results.properties.thermodynamic.trajectory", "results.properties.thermodynamic.trajectory")
  , ("results.properties.thermodynamic.trajectory.available_properties", "results.properties.thermodynamic.trajectory.available_properties")
  , ("results.properties.thermodynamic.trajectory.methodology.molecular_dynamics.ensemble_type", "results.properties.thermodynamic.trajectory.methodology.molecular_dynamics.ensemble_type")
  , ("results.properties.thermodynamic.trajectory.methodology.molecular_dynamics.time_step", "results.properties.thermodynamic.trajectory.methodology.molecular_dynamics.time_step")
  , ("visibility", "visibility")
  , ("combine", "combine")
  , ("exclusive", "exclusive")
  , ("results.material.elements", "results.material.elements")
  , ("electronic_properties", "electronic_properties")
  , ("optoelectronic_properties", "optoelectronic_properties")
  , ("vibrational_properties", "vibrational_properties")
  , ("mechanical_properties", "mechanical_properties")
  , ("spectroscopic_properties", "spectroscopic_properties")
  , ("thermodynamic_properties", "thermodynamic_properties")
  , ("structural_type", "results.material.structural_type")
  , ("functional_type", "results.material.functional_type")
  , ("compound_type", "results.material.compound_type")
  , ("material_name", "results.material.material_name")
  , ("chemical_formula_hill", "results.material.chemical_formula_hill")
  , ("chemical_formula_anonymous", "results.material.chemical_formula_anonymous")
  , ("n_elements", "results.material.n_elements")
  , ("bravais_lattice", "results.material.symmetry.bravais_lattice")
  , ("crystal_system", "results.material.symmetry.crystal_system")
  , ("structure_name", "results.material.symmetry.structure_name")
  , ("strukturbericht_designation", "results.material.symmetry.strukturbericht_designation")
  , ("space_group_symbol", "results.material.symmetry.space_group_symbol")
  , ("point_group", "results.material.symmetry.point_group")
  , ("hall_symbol", "results.material.symmetry.hall_symbol")
  , ("prototype_aflow_id", "results.material.symmetry.prototype_aflow_id")
  , ("method_name", "results.method.method_name")
  , ("workflow_name", "results.method.workflow_name")
  , ("program_name", "results.method.simulation.program_name")
  , ("program_version", "results.method.simulation.program_version")
  , ("basis_set_type", "results.method.simulation.dft.basis_set_type")
  , ("core_electron_treatment", "results.method.simulation.dft.core_electron_treatment")
  , ("xc_functional_type", "results.method.simulation.dft.xc_functional_type")
  , ("xc_functional_names", "results.method.simulation.dft.xc_functional_names")
  , ("exact_exchange_mixing_factor", "results.method.simulation.dft.exact_exchange_mixing_factor")
  , ("u_effective", "results.method.simulation.dft.hubbard_model.u_effective")
  , ("relativity_method", "results.method.simulation.dft.relativity_method")
  , ("tags", "results.eln.tags")
  , ("methods", "results.eln.methods")
  , ("instruments", "results.eln.instruments")
  , ("lab_ids", "results.eln.lab_ids")
  , ("names", "results.eln.names")
  , ("descriptions", "results.eln.descriptions")
  , ("name", "authors.name")
  , ("dataset_name", "datasets.dataset_name")
  , ("doi", "datasets.doi")
  , ("prefix", "entry_name.prefix")
  , ("material_id", "results.material.material_id")
  , ("dataset_id", "datasets.dataset_id")
  , ("eels", "results.properties.spectroscopy.eels")
  , ("detector_type", "results.properties.spectroscopy.eels.detector_type")
  , ("resolution", "results.properties.spectroscopy.eels.resolution")
  , ("min_energy", "results.properties.spectroscopy.eels.min_energy")
  , ("max_energy", "results.properties.spectroscopy.eels.max_energy")
  , ("band_structure_electronic", "results.properties.electronic.band_structure_electronic")
  , ("dos_electronic", "results.properties.electronic.dos_electronic")
  , ("band_gap", "results.properties.electronic.band_structure_electronic.band_gap")
  , ("band_gap_optical", "results.properties.optoelectronic.band_gap_optical")
  , ("solar_cell", "results.properties.optoelectronic.solar_cell")
  , ("efficiency", "results.properties.optoelectronic.solar_cell.efficiency")
  , ("fill_factor", "results.properties.optoelectronic.solar_cell.fill_factor")
  , ("open_circuit_voltage", "results.properties.optoelectronic.solar_cell.open_circuit_voltage")
  , ("short_circuit_current_density", "results.properties.optoelectronic.solar_cell.short_circuit_current_density")
  , ("illumination_intensity", "results.properties.optoelectronic.solar_cell.illumination_intensity")
  , ("device_area", "results.properties.optoelectronic.solar_cell.device_area")
  , ("device_architecture", "results.properties.optoelectronic.solar_cell.device_architecture")
  , ("absorber_fabrication", "results.properties.optoelectronic.solar_cell.absorber_fabrication")
  , ("device_stack", "results.properties.optoelectronic.solar_cell.device_stack")
  , ("absorber", "results.properties.optoelectronic.solar_cell.absorber")
  , ("electron_transport_layer", "results.properties.optoelectronic.solar_cell.electron_transport_layer")
  , ("hole_transport_layer", "results.properties.optoelectronic.solar_cell.hole_transport_layer")
  , ("substrate", "results.properties.optoelectronic.solar_cell.substrate")
  , ("back_contact", "results.properties.optoelectronic.solar_cell.back_contact")
  , ("bulk_modulus", "results.properties.mechanical.bulk_modulus")
  , ("shear_modulus", "results.properties.mechanical.shear_modulus")
  , ("energy_volume_curve", "results.properties.mechanical.energy_volume_curve")
  , ("geometry_optimization", "results.properties.geometry_optimization")
  , ("final_energy_difference", "results.properties.geometry_optimization.final_energy_difference")
  , ("final_displacement_maximum", "results.properties.geometry_optimization.final_displacement_maximum")
  , ("final_force_maximum", "results.properties.geometry_optimization.final_force_maximum")
  , ("trajectory", "results.properties.thermodynamic.trajectory")
  , ("ensemble_type", "results.properties.thermodynamic.trajectory.methodology.molecular_dynamics.ensemble_type")
  , ("time_step", "results.properties.thermodynamic.trajectory.methodology.molecular_dynamics.time_step")
  , ("elements", "results.material.elements") ]

/-- The JS regex character class `\s`. -/
def jsSpace (c : Char) : Bool := c.isWhitespace

/-- The JS regex `.` (without the dotall flag): any character except a line
terminator. -/
def jsDot (c : Char) : Bool := !(c = '\n' || c = '\r')

/-- `pre` is a prefix of `s` (character lists). -/
def charsLead : List Char → List Char → Bool
  | [], _ => true
  | _ :: _, [] => false
  | p :: ps, c :: cs => p = c && charsLead ps cs

/-- Embedding of `s.startsWith(pre)`. -/
def strStarts (s pre : String) : Bool := charsLead pre.toList s.toList

/-- Syntax of the regular expressions used by the search bar: character
classes, greedy star of a character class, sequencing, ordered alternation
and numbered capture groups. -/
inductive RE where
  | eps : RE
  | cls : (Char → Bool) → RE
  | star : (Char → Bool) → RE
  | seq : RE → RE → RE
  | alt : RE → RE → RE
  | group : Nat → RE → RE

/-- Record a capture (JS keeps the last text captured by a group). -/
def capSet (m : List (Nat × String)) (k : Nat) (v : String) : List (Nat × String) :=
  match m with
  | [] => [(k, v)]
  | (k2, v2) :: rest => if k2 = k then (k, v) :: rest else (k2, v2) :: capSet rest k v

def capGet (m : List (Nat × String)) (k : Nat) : Option String :=
  match m with
  | [] => none
  | (k2, v) :: rest => if k2 = k then some v else capGet rest k

/-- Backtracking matcher with the JS regex strategy: alternation tries the
left branch first, star and optional groups are greedy (longest first), the
first overall success wins.  `k` is the continuation receiving the remaining
input and the captures; `fuel` bounds the recursion depth (it is chosen
amply, see `reFuel`). -/
def mmatch (fuel : Nat) (re : RE) (cs : List Char) (caps : List (Nat × String))
    (k : List Char → List (Nat × String) → Option (List (Nat × String))) :
    Option (List (Nat × String)) :=
  match fuel with
  | 0 => none
  | fuel + 1 =>
    match re with
    | .eps => k cs caps
    | .cls p =>
      match cs with
      | [] => none
      | c :: rest => if p c then k rest caps else none
    | .star p =>
      match cs with
      | [] => k cs caps
      | c :: rest =>
        if p c then
          match mmatch fuel (.star p) rest caps k with
          | some r => some r
          | none => k cs caps
        else k cs caps
    | .seq a b =>
      mmatch fuel a cs caps fun rest caps2 => mmatch fuel b rest caps2 k
    | .alt a b =>
      match mmatch fuel a cs caps k with
      | some r => some r
      | none => mmatch fuel b cs caps k
    | .group idx r =>
      mmatch fuel r cs caps fun rest caps2 =>
        k rest (capSet caps2 idx (String.mk (cs.take (cs.length - rest.length))))

/-- Recursion-depth budget for `mmatch`: the depth consumed along any path is
bounded by the regex size plus the input length per star, far below this. -/
def reFuel (s : String) : Nat := 64 * (s.length + 8)

/-- Run a regex anchored on both sides (the source patterns all have the
shape `^...$`), returning the captures of the first match. -/
def reFullMatch (re : RE) (s : String) : Option (List (Nat × String)) :=
  mmatch (reFuel s) re s.toList [] fun rest caps =>
    match rest with
    | [] => some caps
    | _ :: _ => none

/-- Sequencing of a pattern list. -/
def seqAll (rs : List RE) : RE := rs.foldr RE.seq RE.eps

/-- `\s*` -/
def wsStar : RE := .star jsSpace

/-- The building block `reString = '\S(?:.*\S)?'` of every search-bar
pattern: a token starting and ending with a non-space character. -/
def reToken : RE :=
  .seq (.cls fun c => !jsSpace c)
    (.alt (.seq (.star jsDot) (.cls fun c => !jsSpace c)) .eps)

/-- The operator pattern `(<|>=?)` (note: it has no `<=` alternative). -/
def opPattern : RE :=
  .alt (.cls fun c => c = '<')
    (.seq (.cls fun c => c = '>') (.alt (.cls fun c => c = '=') .eps))

/-- The equality pattern `^\s*(reString)\s*=\s*(reString)\s*$`. -/
def equalsRE : RE :=
  seqAll [wsStar, .group 1 reToken, wsStar, .cls (fun c => c = '='), wsStar,
    .group 2 reToken, wsStar]

/-- The simple bound pattern `^\s*(reString)\s*(<|>=?)\s*(reString)\s*$`. -/
def ltgteRE : RE :=
  seqAll [wsStar, .group 1 reToken, wsStar, .group 2 opPattern, wsStar,
    .group 3 reToken, wsStar]

/-- The sandwiched bound pattern
`^\s*(reString)\s*(<|>=?)\s*(reString)\s*(<|>=?)\s*(reString)\s*$`. -/
def sandwichRE : RE :=
  seqAll [wsStar, .group 1 reToken, wsStar, .group 2 opPattern, wsStar,
    .group 3 reToken, wsStar, .group 4 opPattern, wsStar, .group 5 reToken,
    wsStar]

def natFromDigits (ds : List Char) : Nat :=
  ds.foldl (fun acc c => 10 * acc + (c.toNat - '0'.toNat)) 0

/-- Embedding of `Number.parseFloat`: skip leading whitespace, then parse the
longest prefix of the decimal-literal grammar
`[+-] digits [. digits] [e|E [+-] digits]`; `NaN` (here `none`) when no
digit occurs in the mantissa.  Values are exact rationals (the inputs
relevant to the claims are small integer literals, on which the JS double
value is exact; the `Infinity` literal is not modelled). -/
def parseFloat (s : String) : Option ℚ :=
  let cs := s.toList.dropWhile jsSpace
  let signct : Bool × List Char :=
    match cs with
    | '-' :: r => (true, r)
    | '+' :: r => (false, r)
    | _ => (false, cs)
  let neg := signct.1
  let ipRest := signct.2.span Char.isDigit
  let ip := ipRest.1
  let fpRest : List Char × List Char :=
    match ipRest.2 with
    | '.' :: r => r.span Char.isDigit
    | _ => ([], ipRest.2)
  let fp := fpRest.1
  if ip.isEmpty && fp.isEmpty then none
  else
    let expVal : Int :=
      match fpRest.2 with
      | c :: r =>
        if c = 'e' || c = 'E' then
          let esignR : Int × List Char :=
            match r with
            | '-' :: r2 => (-1, r2)
            | '+' :: r2 => (1, r2)
            | _ => (1, r)
          let ed := esignR.2.span Char.isDigit |>.1
          if ed.isEmpty then 0 else esignR.1 * (natFromDigits ed : Int)
        else 0
      | [] => 0
    let mantissa : Int := Int.ofNat (natFromDigits (ip ++ fp))
    let e10 : Int := expVal - Int.ofNat fp.length
    let v : ℚ :=
      if 0 ≤ e10 then mkRat (mantissa * Int.ofNat (10 ^ e10.toNat)) 1
      else mkRat mantissa (10 ^ (-e10).toNat)
    some (if neg then -v else v)

/-- `opMap` (Search.js lines 722-727).  Keys other than the four operators
read `undefined` in JS; they cannot be produced by the operator pattern, the
`""` default is never used. -/
def opMap (op : String) : String :=
  if op = "<=" then "lte"
  else if op = ">=" then "gte"
  else if op = ">" then "gt"
  else if op = "<" then "lt"
  else ""

/-- `opMapReverse` (Search.js lines 728-733). -/
def opMapReverse (op : String) : String :=
  if op = "<=" then "gte"
  else if op = ">=" then "lte"
  else if op = ">" then "lt"
  else if op = "<" then "gt"
  else ""

/-- The range object built by `queryValue = {}` followed by assignments
`queryValue[boundKey] = number`. -/
structure RangeValue where
  lt : Option ℚ := none
  lte : Option ℚ := none
  gt : Option ℚ := none
  gte : Option ℚ := none
  deriving DecidableEq, Repr

/-- `queryValue[key] = v` for a bound key produced by the operator tables. -/
def rangeAssign (r : RangeValue) (key : String) (v : ℚ) : RangeValue :=
  if key = "lt" then { r with lt := some v }
  else if key = "lte" then { r with lte := some v }
  else if key = "gt" then { r with gt := some v }
  else if key = "gte" then { r with gte := some v }
  else r

/-- The value submitted to the search context: the literal string of an
equality query, or a range object. -/
inductive QueryValue where
  | str : String → QueryValue
  | range : RangeValue → QueryValue
  deriving DecidableEq, Repr

/-- Outcome of `handleSubmit`: no-op on blank input, an inline validation
error (`setError(message)`), or a `(fullname, value)` pair submitted via
`setFilter`. -/
inductive SubmitResult where
  | noop : SubmitResult
  | error : String → SubmitResult
  | submit : String → QueryValue → SubmitResult
  deriving DecidableEq, Repr

/-- The four validation messages of `handleSubmit`, corresponding to the
specification's error categories `UnknownQuantity`, `InvalidNumber`,
`UnsupportedRangeType` and `InvalidQuery`. -/
def unknownQuantityMsg : String := "Unknown quantity name"

def invalidNumberMsg : String := "Invalid number"

def unsupportedRangeMsg : String := "Cannot perform range query for a non-numeric quantity."

def invalidQueryMsg : String := "Invalid query"

/-- The ambient data `handleSubmit` reads: the `quantities` prop (the set of
searchable quantities), the `quantityFullnames` abbreviation map, and the
`type.type_data` string of each quantity from `searchQuantities`. -/
structure SearchEnv where
  quantities : List String
  fullnames : List (String × String)
  typeData : List (String × String)

/-- `quantitySet.has(x)` where `x` may be `undefined`. -/
def memOptStr (qs : List String) : Option String → Bool
  | none => false
  | some s => qs.contains s

/-- Embedding of the maps built in Search.js lines 700-720 from the keys of
`searchQuantities` that start with `results`: the last dot-segment of each
name is its candidate abbreviation; only abbreviations occurring exactly once
are registered (first component: `quantityAbbreviations`, second:
`quantityFullnames`). -/
def buildQuantityMaps (names : List String) :
    List (String × String) × List (String × String) :=
  let quantityNames := names.filter fun q => strStarts q "results"
  let abbreviationList := quantityNames.map lastSegment
  let seenNonUniques := abbreviationList.foldl
    (fun (acc : List String × List String) abbr =>
      if acc.1.contains abbr then (acc.1, abbr :: acc.2)
      else (abbr :: acc.1, acc.2))
    ([], [])
  let nonUniques := seenNonUniques.2
  (quantityNames.zip abbreviationList).foldl
    (fun acc p =>
      if nonUniques.contains p.2 then acc
      else (alSet acc.1 p.1 p.2, alSet acc.2 p.2 p.1))
    ([], [])

/-- `inputValue.trim().length`. -/
def jsTrimmedLength (s : String) : Nat :=
  ((s.toList.dropWhile jsSpace).reverse.dropWhile jsSpace).length

/-- Embedding of `handleSubmit` of the search bar (Search.js lines 765-861).
The three grammar forms are tried in order; every error path returns
immediately (`setError(...); return`), a successful form submits
`(quantityFullname, queryValue)`. -/
def handleSubmit (env : SearchEnv) (inputValue : String) : SubmitResult :=
  if jsTrimmedLength inputValue = 0 then .noop
  else
    match reFullMatch equalsRE inputValue with
    | some caps =>
      let quantityName := (capGet caps 1).getD ""
      let queryValue := (capGet caps 2).getD ""
      let quantityFullname := alGet env.fullnames quantityName
      if !memOptStr env.quantities quantityFullname then .error unknownQuantityMsg
      else .submit (quantityFullname.getD "") (.str queryValue)
    | none =>
      match reFullMatch ltgteRE inputValue with
      | some caps =>
        let a := (capGet caps 1).getD ""
        let op := (capGet caps 2).getD ""
        let b := (capGet caps 3).getD ""
        let aFullname := alGet env.fullnames a
        let bFullname := alGet env.fullnames b
        let isAQuantity := memOptStr env.quantities aFullname
        let isBQuantity := memOptStr env.quantities bFullname
        if !isAQuantity && !isBQuantity then .error unknownQuantityMsg
        else
          let quantityFullname :=
            if isAQuantity then aFullname.getD "" else bFullname.getD ""
          match parseFloat (if isAQuantity then b else a) with
          | none => .error invalidNumberMsg
          | some quantityValue =>
            let td := (alGet env.typeData quantityFullname).getD ""
            if !(strStarts td "int" || strStarts td "float") then
              .error unsupportedRangeMsg
            else
              .submit quantityFullname
                (.range (rangeAssign {} (opMap op) quantityValue))
      | none =>
        match reFullMatch sandwichRE inputValue with
        | some caps =>
          let a := (capGet caps 1).getD ""
          let op1 := (capGet caps 2).getD ""
          let b := (capGet caps 3).getD ""
          let op2 := (capGet caps 4).getD ""
          let c := (capGet caps 5).getD ""
          let quantityFullname := alGet env.fullnames b
          if !memOptStr env.quantities quantityFullname then
            .error unknownQuantityMsg
          else
            match parseFloat a, parseFloat c with
            | some aValue, some cValue =>
              let fn := quantityFullname.getD ""
              let td := (alGet env.typeData fn).getD ""
              if !(strStarts td "int" || strStarts td "float") then
                .error unsupportedRangeMsg
              else
                .submit fn
                  (.range (rangeAssign (rangeAssign {} (opMapReverse op1) aValue)
                    (opMap op2) cValue))
            | _, _ => .error invalidNumberMsg
        | none => .error invalidQueryMsg

/-- A search environment with the single registered numeric (integer-typed)
quantity `results.a`, abbreviated `a`. -/
def envNumericA : SearchEnv :=
  { quantities := ["results.a"]
    fullnames := (buildQuantityMaps ["results.a"]).2
    typeData := [("results.a", "int64")] }

/-- A search environment with the single registered numeric (float-typed)
quantity `results.f`, abbreviated `f`. -/
def envNumericF : SearchEnv :=
  { quantities := ["results.f"]
    fullnames := (buildQuantityMaps ["results.f"]).2
    typeData := [("results.f", "float64")] }

/-- Modelled from the spec: the search store's response-application step
(`SearchContext`) is not part of the supplied sources.  The spec requires the
stale-response guard as a property of the store ("the store must apply only
the response whose request parameters match the *current* state at
completion time").  The store state owns the current request parameters and
the applied (visible) response. -/
structure SearchStoreState where
  current : List (String × String)
  visibleParams : Option (List (String × String)) := none
  visibleData : Option (List String) := none
  deriving DecidableEq, Repr

/-- Modelled from the spec: a user interaction sets the current query and
pagination parameters and dispatches a fetch tagged with them. -/
def setQuery (s : SearchStoreState) (p : List (String × String)) :
    SearchStoreState :=
  { s with current := p }

/-- Modelled from the spec: a completing fetch is applied only if the
parameters it was issued with still equal the store's current parameters at
completion time; a stale response leaves the state unchanged. -/
def applyResponse (s : SearchStoreState)
    (requestParams : List (String × String)) (data : List String) :
    SearchStoreState :=
  if requestParams = s.current then
    { s with visibleParams := some requestParams, visibleData := some data }
  else s

/-- The event sequence of the race in the claim: R1 is issued for parameters
`p1`, then R2 for `p2` before R1 completes; R2's response `r2` arrives first
and R1's response `r1` arrives last. -/
def staleRaceFinal (s0 : SearchStoreState) (p1 p2 : List (String × String))
    (r1 r2 : List String) : SearchStoreState :=
  applyResponse (applyResponse (setQuery (setQuery s0 p1) p2) p2 r2) p1 r1


/-!  Theorems. -/

theorem jsOrNum_of_truthy (a b : Option Int) (h : truthyNum a = true) :
    jsOrNum a b = a := by
  cases a with
  | none => simp [truthyNum] at h
  | some x => simp [truthyNum] at h; simp [jsOrNum, h]

theorem jsOrStr_of_truthy (a b : Option String) (h : truthyStr a = true) :
    jsOrStr a b = a := by
  cases a with
  | none => simp [truthyStr] at h
  | some s => simp [truthyStr] at h; simp [jsOrStr, h]

theorem combinePagination_page_size_eq (request response : Pagination) :
    (combinePagination request response).page_size =
      jsOrNum request.page_size response.page_size := by
  simp only [combinePagination]
  split <;> rfl

theorem combinePagination_order_by_eq (request response : Pagination) :
    (combinePagination request response).order_by =
      jsOrStr request.order_by response.order_by := by
  simp only [combinePagination]
  split <;> rfl

theorem combinePagination_order_eq (request response : Pagination) :
    (combinePagination request response).order =
      jsOrStr request.order response.order := by
  simp only [combinePagination]
  split <;> rfl

theorem combinePagination_page_eq (request response : Pagination) :
    (combinePagination request response).page =
      jsOrNum request.page response.page := by
  simp only [combinePagination]
  split <;> rfl

theorem combinePagination_total_eq (request response : Pagination) :
    (combinePagination request response).total = response.total := by
  simp only [combinePagination]
  split <;> rfl

/-- C3: `combinePagination` takes `page_size`, `order_by`, `order` and `page`
from the request whenever the request provides a (truthy) value, falls back to
the response when the request omits the field, and always takes `total` from
the response. -/
theorem combinePagination_request_overrides (request response : Pagination) :
    (truthyNum request.page_size = true →
      (combinePagination request response).page_size = request.page_size) ∧
    (request.page_size = none →
      (combinePagination request response).page_size = response.page_size) ∧
    (truthyStr request.order_by = true →
      (combinePagination request response).order_by = request.order_by) ∧
    (request.order_by = none →
      (combinePagination request response).order_by = response.order_by) ∧
    (truthyStr request.order = true →
      (combinePagination request response).order = request.order) ∧
    (request.order = none →
      (combinePagination request response).order = response.order) ∧
    (truthyNum request.page = true →
      (combinePagination request response).page = request.page) ∧
    (request.page = none →
      (combinePagination request response).page = response.page) ∧
    (combinePagination request response).total = response.total := by
  refine ⟨fun h => ?_, fun h => ?_, fun h => ?_, fun h => ?_, fun h => ?_,
    fun h => ?_, fun h => ?_, fun h => ?_, ?_⟩ <;>
    simp only [combinePagination_page_size_eq, combinePagination_order_by_eq,
      combinePagination_order_eq, combinePagination_page_eq,
      combinePagination_total_eq]
  · exact jsOrNum_of_truthy _ _ h
  · simp [h, jsOrNum]
  · exact jsOrStr_of_truthy _ _ h
  · simp [h, jsOrStr]
  · exact jsOrStr_of_truthy _ _ h
  · simp [h, jsOrStr]
  · exact jsOrNum_of_truthy _ _ h
  · simp [h, jsOrNum]

/-- C3 witness: the concrete instance from the specification,
`combinePagination({page_size:10}, {page_size:20,total:5})` has
`page_size = 10` and `total = 5`. -/
theorem combinePagination_request_overrides_witness :
    (combinePagination { page_size := some 10 }
      { page_size := some 20, total := some 5 }).page_size = some 10 ∧
    (combinePagination { page_size := some 10 }
      { page_size := some 20, total := some 5 }).total = some 5 := by
  have h := combinePagination_request_overrides { page_size := some 10 }
    { page_size := some 20, total := some 5 }
  exact ⟨h.1 (by decide), h.2.2.2.2.2.2.2.2⟩

/-- C8: pagination mode exclusivity.  Whenever the combined pagination object
carries an active (truthy) `page`, neither `page_after_value` nor
`next_page_after_value` is present: the cursor fields are written only on the
branch where `page` is falsy. -/
theorem combinePagination_mode_exclusive (request response : Pagination)
    (h : truthyNum (combinePagination request response).page = true) :
    (combinePagination request response).page_after_value = none ∧
    (combinePagination request response).next_page_after_value = none := by
  rw [combinePagination_page_eq] at h
  simp only [combinePagination]
  rw [if_pos h]
  exact ⟨rfl, rfl⟩

/-- C8 witness: a page-driven request combined with a response carrying a
cursor yields no cursor fields. -/
theorem combinePagination_mode_exclusive_witness :
    (combinePagination { page := some 1 }
      { next_page_after_value := some 3 }).page_after_value = none ∧
    (combinePagination { page := some 1 }
      { next_page_after_value := some 3 }).next_page_after_value = none :=
  combinePagination_mode_exclusive { page := some 1 }
    { next_page_after_value := some 3 } (by decide)

/-- C7: toggling the selection of any row while the selection state is the
sentinel `"all"` produces exactly the singleton list containing that row; no
complement of the full row set is computed. -/
theorem handleSelect_all_collapses_to_singleton (row : Row) :
    handleSelect Selected.all row = Selected.rows [row] := rfl

/-- C2: the fail-fast check does not fire.  A fresh registration whose config
sets `queryMode := 'all'` together with `multiple := false` is accepted and
stored (the guard reads `data.queryMode` before that field is assigned from
the config, so it sees `undefined` on a fresh registration); and the real
registration config of the `visibility` filter (`multiple: false`, `global:
true`, `default: 'visible'`) is stored with `queryMode = 'any'` and
`multiple = false`, so after construction a registered filter can have
`queryMode` set while `multiple === false`. -/
theorem saveFilter_accepts_queryMode_without_multiple :
    saveFilter none { queryMode := some "all", multiple := some false } =
      Except.ok
        { multiple := false
          exclusive := true
          queryMode := "all"
          global := none
          default := none
          resources := ["entries", "materials"] } ∧
    saveFilter none
        { multiple := some false, global := some true,
          default := some (JSDefault.str "visible") } =
      Except.ok
        { multiple := false
          exclusive := true
          queryMode := "any"
          global := some true
          default := some (JSDefault.str "visible")
          resources := ["entries", "materials"] } := by
  exact ⟨rfl, rfl⟩

/-- C10: implicit registry defaults.  Every registration accepted by
`saveFilter` stores `multiple = true` when the config omits `multiple`,
`exclusive = true` when the config omits `exclusive`, and a `queryMode` that
is always defined: `'any'` whenever the config omits it (this holds for every
config, in particular for configs with `multiple: false`), and never the
empty string. -/
theorem saveFilter_implicit_defaults (prev : Option FilterData)
    (config : FilterConfig) (data : FilterData)
    (h : saveFilter prev config = Except.ok data) :
    (config.multiple = none → data.multiple = true) ∧
    (config.exclusive = none → data.exclusive = true) ∧
    (config.queryMode = none → data.queryMode = "any") ∧
    data.queryMode ≠ "" := by
  simp only [saveFilter] at h
  split at h
  · exact absurd h (by simp)
  · split at h
    · exact absurd h (by simp)
    · simp only [Except.ok.injEq] at h
      subst h
      refine ⟨fun hm => ?_, fun he => ?_, fun hq => ?_, ?_⟩
      · simp [hm]
      · simp [he]
      · simp [hq]
      · cases hq : config.queryMode with
        | none => simp [hq]
        | some s =>
          simp only [hq]
          split
          · simp
          · simpa using by assumption

/-- C10 witness: the `numberHistogramQuantity` preset
(`{multiple: false, exclusive: false}`) is accepted, and the stored entry
gets `queryMode = 'any'` even though `multiple = false`. -/
theorem saveFilter_implicit_defaults_witness :
    saveFilter none { multiple := some false, exclusive := some false } =
      Except.ok
        { multiple := false
          exclusive := false
          queryMode := "any"
          global := none
          default := none
          resources := ["entries", "materials"] } ∧
    ((FilterConfig.queryMode
        { multiple := some false, exclusive := some false } = none →
      FilterData.queryMode
        { multiple := false
          exclusive := false
          queryMode := "any"
          global := none
          default := none
          resources := ["entries", "materials"] } = "any") ∧
      FilterData.queryMode
        { multiple := false
          exclusive := false
          queryMode := "any"
          global := none
          default := none
          resources := ["entries", "materials"] } ≠ "") :=
  ⟨rfl,
    (saveFilter_implicit_defaults none
      { multiple := some false, exclusive := some false } _ rfl).2.2⟩

set_option maxRecDepth 100000 in
set_option maxHeartbeats 4000000 in
theorem buildFilterNameMaps_eval :
    buildFilterNameMaps registeredFilterNames =
      (abbreviationMapValue, fullnameMapValue) := by decide

/-- C6 counterexample: for the registered filter name
`results.material.material_name`, whose short form `material_name` is unique
across all registered filters, `abbreviate(fullname(n))` is the short form
`material_name`, not `n` itself, refuting the claimed round trip
`abbreviate(fullname(n)) == n`. -/
theorem abbreviate_fullname_roundtrip_fails :
    shortFormCount registeredFilterNames
      (lastSegment "results.material.material_name") = 1 ∧
    alGet filterAbbreviations
        ((alGet filterFullnames "results.material.material_name").getD "") ≠
      some "results.material.material_name" := by
  have hA : filterAbbreviations = abbreviationMapValue :=
    congrArg Prod.fst buildFilterNameMaps_eval
  have hF : filterFullnames = fullnameMapValue :=
    congrArg Prod.snd buildFilterNameMaps_eval
  rw [hA, hF]
  decide

set_option maxRecDepth 100000 in
set_option maxHeartbeats 8000000 in
theorem filterNameMaps_fullname_of_abbrev :
    ∀ m ∈ registeredFilterNames,
      alGet fullnameMapValue ((alGet abbreviationMapValue m).getD "") =
        some m := by decide

set_option maxRecDepth 100000 in
set_option maxHeartbeats 8000000 in
theorem filterNameMaps_abbrev_of_unique :
    ∀ m ∈ registeredFilterNames,
      shortFormCount registeredFilterNames (lastSegment m) = 1 →
        alGet abbreviationMapValue ((alGet fullnameMapValue m).getD "") =
          some (lastSegment m) := by decide

/-- C6 (amended): for every registered filter name `n`,
`fullname(abbreviate(n)) == n` holds without exception, and
`abbreviate(fullname(n))` equals `n`'s last dot-segment short form (not `n`
itself, unless `n` is dotless) whenever that short form is unique across all
registered filters. -/
theorem filter_abbreviation_roundtrip (n : String)
    (h : n ∈ registeredFilterNames) :
    alGet filterFullnames ((alGet filterAbbreviations n).getD "") = some n ∧
    (shortFormCount registeredFilterNames (lastSegment n) = 1 →
      alGet filterAbbreviations ((alGet filterFullnames n).getD "") =
        some (lastSegment n)) := by
  have hA : filterAbbreviations = abbreviationMapValue :=
    congrArg Prod.fst buildFilterNameMaps_eval
  have hF : filterFullnames = fullnameMapValue :=
    congrArg Prod.snd buildFilterNameMaps_eval
  rw [hA, hF]
  exact ⟨filterNameMaps_fullname_of_abbrev n h,
    filterNameMaps_abbrev_of_unique n h⟩

/-- C6 witness: the registered name `entry_id` (its own short form) round
trips in both directions. -/
theorem filter_abbreviation_roundtrip_witness :
    "entry_id" ∈ registeredFilterNames ∧
    (alGet filterFullnames
        ((alGet filterAbbreviations "entry_id").getD "") = some "entry_id" ∧
      (shortFormCount registeredFilterNames (lastSegment "entry_id") = 1 →
        alGet filterAbbreviations
            ((alGet filterFullnames "entry_id").getD "") =
          some (lastSegment "entry_id"))) :=
  ⟨by decide, filter_abbreviation_roundtrip "entry_id" (by decide)⟩

/-- C1: evaluating the parser on the sandwiched double-bound input
`"3 < a < 7"` with `a` a registered numeric filter.  The simple-bound branch
is tried first and its greedy regex matches the whole input with left
identifier `"3 < a"`, operator `<` and right identifier `"7"`; since neither
side resolves, the branch errors with `Unknown quantity name` and returns,
so the sandwiched branch is unreachable and the claimed pair
`(a, {gt:3, lt:7})` is never produced. -/
theorem handleSubmit_sandwich_unreachable :
    handleSubmit envNumericA "3 < a < 7" =
      SubmitResult.error unknownQuantityMsg ∧
    handleSubmit envNumericA "3 < a < 7" ≠
      SubmitResult.submit "results.a"
        (QueryValue.range { gt := some 3, lt := some 7 }) := by
  constructor
  · decide
  · decide

/-- C4: the simple-bound branch maps the operator through the direct table
`opMap` regardless of which side the filter is on: `"5 < f"` submits
`(results.f, {lt: 5})` and `"5 > f"` submits `(results.f, {gt: 5})` — not
the reversed bounds `{gt: 5}` / `{lt: 5}` the claim states. -/
theorem handleSubmit_right_filter_not_reversed :
    handleSubmit envNumericF "5 < f" =
      SubmitResult.submit "results.f" (QueryValue.range { lt := some 5 }) ∧
    handleSubmit envNumericF "5 > f" =
      SubmitResult.submit "results.f" (QueryValue.range { gt := some 5 }) ∧
    handleSubmit envNumericF "5 < f" ≠
      SubmitResult.submit "results.f" (QueryValue.range { gt := some 5 }) := by
  refine ⟨by decide, by decide, by decide⟩

/-- C5 counterexample: the single-bound input `"a < foo"` in which neither
side resolves to a registered filter is not reported as `Invalid query`. -/
theorem handleSubmit_unresolved_not_invalidQuery :
    handleSubmit envNumericF "a < foo" ≠
      SubmitResult.error invalidQueryMsg := by decide

/-- C5 (amended): for every single-bound input `"x op y"` in which neither
side resolves to a registered filter name, the parser reports the error
category `UnknownQuantity` (`Unknown quantity name`), not `InvalidQuery`.
Universally: in any environment, any non-blank input that does not match the
equality pattern and matches the single-bound pattern with neither captured
side resolving to a registered quantity is reported as
`Unknown quantity name`. -/
theorem handleSubmit_unresolved_sides_unknownQuantity
    (env : SearchEnv) (s : String) (caps : List (Nat × String))
    (hlen : jsTrimmedLength s ≠ 0)
    (heq : reFullMatch equalsRE s = none)
    (hmatch : reFullMatch ltgteRE s = some caps)
    (ha : memOptStr env.quantities
      (alGet env.fullnames ((capGet caps 1).getD "")) = false)
    (hb : memOptStr env.quantities
      (alGet env.fullnames ((capGet caps 3).getD "")) = false) :
    handleSubmit env s = SubmitResult.error unknownQuantityMsg := by
  unfold handleSubmit
  rw [if_neg hlen, heq, hmatch]
  simp [ha, hb]

/-- C5 witness: the spec's example `"a < foo"`, which matches the
single-bound pattern with sides `a` and `foo`, neither resolving. -/
theorem handleSubmit_unresolved_sides_unknownQuantity_witness :
    jsTrimmedLength "a < foo" ≠ 0 ∧
    reFullMatch equalsRE "a < foo" = none ∧
    reFullMatch ltgteRE "a < foo" = some [(1, "a"), (2, "<"), (3, "foo")] ∧
    handleSubmit envNumericF "a < foo" = SubmitResult.error unknownQuantityMsg :=
  ⟨by decide, by decide, by decide,
    handleSubmit_unresolved_sides_unknownQuantity envNumericF "a < foo"
      [(1, "a"), (2, "<"), (3, "foo")] (by decide) (by decide) (by decide)
      (by decide) (by decide)⟩

/-- C9: stale-response guard (spec-modelled store).  For fetches R1 then R2
with distinct parameters, if R2's response arrives before R1's, the final
visible state carries R2's parameters and response, never R1's. -/
theorem stale_response_guard (s0 : SearchStoreState)
    (p1 p2 : List (String × String)) (r1 r2 : List String) (h : p1 ≠ p2) :
    (staleRaceFinal s0 p1 p2 r1 r2).visibleParams = some p2 ∧
    (staleRaceFinal s0 p1 p2 r1 r2).visibleData = some r2 := by
  simp [staleRaceFinal, setQuery, applyResponse, h]

/-- C9 witness: the guard at concrete distinct parameter lists. -/
theorem stale_response_guard_witness :
    ([("query", "1")] : List (String × String)) ≠ [("query", "2")] ∧
    ((staleRaceFinal { current := [] } [("query", "1")] [("query", "2")]
        ["row1"] ["row2"]).visibleParams = some [("query", "2")] ∧
      (staleRaceFinal { current := [] } [("query", "1")] [("query", "2")]
        ["row1"] ["row2"]).visibleData = some ["row2"]) :=
  ⟨by decide,
    stale_response_guard { current := [] } [("query", "1")] [("query", "2")]
      ["row1"] ["row2"] (by decide)⟩
